import Mathlib

set_option autoImplicit false

namespace MedTrans

/-!
Shallow embedding of the ai-medical-transcription backend core:
the coding/billing-risk orchestrator, the NLP pipeline with consent-gated
phrase normalization, the decision-support rule engine, the consent gate,
and the in-memory transcription/encounter services with tenant-scoped stores.

Python dicts are modelled as insertion-ordered association lists; Python
`None`/empty-string truthiness is modelled explicitly; exceptions are
modelled with `Except`.
-/

/-- Python dict lookup (`d.get(k)`) over an insertion-ordered assoc list. -/
def dictGet {κ : Type} [DecidableEq κ] {α : Type} : List (κ × α) → κ → Option α
  | [], _ => none
  | (k', v) :: rest, k => if k' = k then some v else dictGet rest k

/-- Python dict assignment (`d[k] = v`): replace in place, else append. -/
def dictSet {κ : Type} [DecidableEq κ] {α : Type} : List (κ × α) → κ → α → List (κ × α)
  | [], k, v => [(k, v)]
  | (k', v') :: rest, k, v =>
      if k' = k then (k, v) :: rest else (k', v') :: dictSet rest k v

/-- Python truthiness of an `Optional[str]`: `None` and `""` are falsy. -/
def pyTruthyStr : Option String → Bool
  | none => false
  | some s => s != ""

/-- `needle` is a prefix of `hay`, comparing chars exactly. -/
def startsWithL : List Char → List Char → Bool
  | _, [] => true
  | [], _ :: _ => false
  | a :: as, b :: bs => a == b && startsWithL as bs

/-- Python `needle in hay` substring containment on char lists. -/
def containsL : List Char → List Char → Bool
  | [], needle => needle.isEmpty
  | a :: rest, needle => startsWithL (a :: rest) needle || containsL rest needle

/-- Python `needle in hay` on strings. -/
def strContains (hay needle : String) : Bool :=
  containsL hay.data needle.data

/-- Python `s.lower()`, written char-by-char so it evaluates by reduction. -/
def pyLower (s : String) : String :=
  String.mk (s.data.map Char.toLower)

/-! ## Domain: coding models (src/backend/domain/nlp/coding_models.py) -/

inductive CodeSystem where
  | ICD10
  | CPT
  | SNOMED
  | OTHER
deriving DecidableEq, Repr

structure CodeAssignment where
  code_system : CodeSystem
  code : String
  display : Option String := none
  source_entity_label : Option String := none
  source_text : String
  confidence : Option Nat := none
  category : Option String := none
deriving DecidableEq, Repr

inductive BillingRiskLevel where
  | LOW
  | MEDIUM
  | HIGH
deriving DecidableEq, Repr

structure BillingRiskSummary where
  level : BillingRiskLevel
  reasons : List String := []
  suggested_actions : List String := []
deriving DecidableEq, Repr

/-! ## Domain: NLP models (src/backend/domain/nlp/models.py) -/

structure ClinicalEntity where
  label : String
  text : String
  code : Option String := none
deriving DecidableEq, Repr

structure ClinicalEntities where
  diagnoses : List ClinicalEntity := []
  medications : List ClinicalEntity := []
  symptoms : List ClinicalEntity := []
  vitals : List ClinicalEntity := []
deriving DecidableEq, Repr

structure SOAPSection where
  text : String
deriving DecidableEq, Repr

structure SOAPNote where
  subjective : SOAPSection
  objective : SOAPSection
  assessment : SOAPSection
  plan : SOAPSection
deriving DecidableEq, Repr

/-! ## CodingOrchestrator (src/backend/services/nlp/coding_orchestrator.py) -/

/-- The coding-system guess in `assign_codes`: `ent.code` truthy and the code
starts with a letter and contains a digit ⇒ ICD10, else OTHER. -/
def guessSystem : Option String → CodeSystem
  | none => CodeSystem.OTHER
  | some s =>
      match s.data with
      | [] => CodeSystem.OTHER
      | c :: cs =>
          if c.isAlpha && (c :: cs).any (fun d => d.isDigit) then CodeSystem.ICD10
          else CodeSystem.OTHER

/-- Python `ent.code or "UNCODED"`. -/
def codeOrUncoded : Option String → String
  | none => "UNCODED"
  | some s => if s == "" then "UNCODED" else s

/-- One iteration of `_add_from_bucket`: entities with falsy `text` are
skipped (`if not ent.text: continue`), the rest yield one assignment. -/
def entityAssignment (category : String) (ent : ClinicalEntity) : Option CodeAssignment :=
  if ent.text == "" then none
  else
    some
      { code_system := guessSystem ent.code
        code := codeOrUncoded ent.code
        display := none
        source_entity_label := some ent.label
        source_text := ent.text
        confidence := none
        category := some category }

/-- `_add_from_bucket(bucket, category)` as the list of produced assignments. -/
def addFromBucket (bucket : List ClinicalEntity) (category : String) : List CodeAssignment :=
  bucket.filterMap (entityAssignment category)

/-- `" ".join([subjective, objective, assessment, plan]).lower()`. -/
def soapJoinedLower (s : SOAPNote) : String :=
  pyLower (s.subjective.text ++ " " ++ s.objective.text ++ " " ++ s.assessment.text
    ++ " " ++ s.plan.text)

/-- The synthesized follow-up procedure assignment of `assign_codes`. -/
def followUpAssignment : CodeAssignment :=
  { code_system := CodeSystem.CPT
    code := "99213_DEMO"
    display := some "Established patient office visit (demo)"
    source_entity_label := some "PROCEDURE"
    source_text := "follow-up visit"
    confidence := none
    category := some "procedure" }

/-- `CodingOrchestrator._compute_billing_risk`. The Python return type is
`BillingRiskSummary | None` but every branch returns a summary. -/
def compute_billing_risk (assignments : List CodeAssignment) : BillingRiskSummary :=
  if assignments.isEmpty then
    { level := BillingRiskLevel.HIGH
      reasons := ["No codes assigned; potential under-coding or missing documentation."]
      suggested_actions := ["Review encounter for billable diagnoses and procedures."] }
  else
    let has_dx := assignments.any (fun a => a.category == some "diagnosis")
    let has_proc := assignments.any (fun a => a.category == some "procedure")
    if has_dx && has_proc then
      { level := BillingRiskLevel.LOW
        reasons := ["Both diagnoses and procedures are present."]
        suggested_actions := ["Consider reviewing E/M level for optimization where allowed."] }
    else if has_dx || has_proc then
      { level := BillingRiskLevel.MEDIUM
        reasons := ["Only diagnoses or only procedures present."]
        suggested_actions := ["Check whether additional supporting codes are appropriate."] }
    else
      { level := BillingRiskLevel.HIGH
        reasons := ["Only symptom/other codes present."]
        suggested_actions :=
          ["Ensure definitive diagnoses and procedures are captured when clinically appropriate."] }

/-- `CodingOrchestrator.assign_codes`. -/
def assign_codes (entities : ClinicalEntities) (soap_note : Option SOAPNote) :
    List CodeAssignment × BillingRiskSummary :=
  let base :=
    addFromBucket entities.diagnoses "diagnosis"
      ++ addFromBucket entities.medications "medication"
      ++ addFromBucket entities.symptoms "symptom"
  let assignments :=
    match soap_note with
    | none => base
    | some s =>
        if strContains (soapJoinedLower s) "follow-up"
            || strContains (soapJoinedLower s) "follow up" then
          base ++ [followUpAssignment]
        else base
  (assignments, compute_billing_risk assignments)

/-! ## Domain: transcription job (src/backend/domain/models/transcription_job.py) -/

inductive TranscriptJobStatus where
  | PENDING
  | PROCESSING
  | COMPLETED
  | FAILED
deriving DecidableEq, Repr

/-- `TranscriptJob`; uuids and timestamps are modelled as naturals. -/
structure TranscriptJob where
  id : Nat
  created_at : Nat
  status : TranscriptJobStatus
  audio_url : String
  language_code : Option String := none
  target_language : Option String := none
  result_text : Option String := none
  translated_text : Option String := none
  tenant_id : String
deriving DecidableEq, Repr

/-! ## InMemoryTranscriptionService (src/backend/services/transcription/service.py) -/

/-- `InMemoryTranscriptionService._run_job`. The ASR and translation backends
are modelled as fallible functions (`Except.error` = a raised Python
exception). The result pairs the call outcome with the `_jobs` store as the
call leaves it: Python mutates the stored job object in place, so the
PROCESSING status write is visible in the store even when a backend raises
and the exception propagates out of `_run_job` (there is no try/except). -/
def run_job (asr : String → Option String → Except String String)
    (translate : String → String → Option String → Except String String)
    (jobs : List (Nat × TranscriptJob)) (job_id : Nat) :
    Except String TranscriptJob × List (Nat × TranscriptJob) :=
  match dictGet jobs job_id with
  | none => (Except.error "KeyError", jobs)
  | some job0 =>
      let job1 := { job0 with status := TranscriptJobStatus.PROCESSING }
      let jobs1 := dictSet jobs job_id job1
      match asr job1.audio_url job1.language_code with
      | Except.error e => (Except.error e, jobs1)
      | Except.ok base_text =>
          let translated : Except String (Option String) :=
            match job1.target_language with
            | none => Except.ok none
            | some tgt =>
                match translate base_text tgt job1.language_code with
                | Except.error e => Except.error e
                | Except.ok t => Except.ok (some t)
          match translated with
          | Except.error e => (Except.error e, jobs1)
          | Except.ok translated_text =>
              let job2 :=
                { job1 with
                  result_text := some base_text
                  translated_text := translated_text
                  status := TranscriptJobStatus.COMPLETED }
              (Except.ok job2, dictSet jobs1 job_id job2)

/-- `InMemoryTranscriptionService.get_job`. -/
def get_job (jobs : List (Nat × TranscriptJob)) (current_tenant : String)
    (job_id : Nat) : Option TranscriptJob :=
  match dictGet jobs job_id with
  | none => none
  | some job => if job.tenant_id ≠ current_tenant then none else some job

/-! ## Domain: encounters and notes
(src/backend/domain/models/clinical_encounter.py, clinical_note.py) -/

inductive EncounterStatus where
  | CREATED
  | IN_PROGRESS
  | READY_FOR_REVIEW
  | FINALIZED
deriving DecidableEq, Repr

structure ClinicalEncounter where
  id : Nat
  created_at : Nat
  clinician_id : Option String := none
  patient_id : Option String := none
  status : EncounterStatus := EncounterStatus.CREATED
  title : Option String := none
  transcription_job_ids : List Nat := []
  assigned_scribe_id : Option String := none
  tenant_id : String
deriving DecidableEq, Repr

structure ClinicalNoteSection where
  text : String
deriving DecidableEq, Repr

structure ClinicalNote where
  id : Nat
  encounter_id : Nat
  created_at : Nat
  updated_at : Nat
  created_by : Option String := none
  last_edited_by : Option String := none
  is_finalized : Bool := false
  reviewed_by : Option String := none
  reviewed_at : Option Nat := none
  review_comment : Option String := none
  subjective : ClinicalNoteSection
  objective : ClinicalNoteSection
  assessment : ClinicalNoteSection
  plan : ClinicalNoteSection
  tenant_id : String
deriving DecidableEq, Repr

/-! ## InMemoryEncounterService (src/backend/services/encounters/service.py) -/

/-- The `_encounters` and `_notes` dicts of `InMemoryEncounterService`. -/
structure EncounterServiceState where
  encounters : List (Nat × ClinicalEncounter) := []
  notes : List (Nat × ClinicalNote) := []
deriving DecidableEq, Repr

/-- `InMemoryEncounterService.get_encounter`. -/
def get_encounter (st : EncounterServiceState) (current_tenant : String)
    (encounter_id : Nat) : Option ClinicalEncounter :=
  match dictGet st.encounters encounter_id with
  | none => none
  | some enc => if enc.tenant_id ≠ current_tenant then none else some enc

/-- `InMemoryEncounterService.get_note`. -/
def get_note (st : EncounterServiceState) (current_tenant : String)
    (note_id : Nat) : Option ClinicalNote :=
  match dictGet st.notes note_id with
  | none => none
  | some note => if note.tenant_id ≠ current_tenant then none else some note

/-- `InMemoryEncounterService.attach_job` (`self._encounters[encounter_id]`
raising `KeyError` and the cross-tenant `KeyError` are `Except.error`). -/
def attach_job (st : EncounterServiceState) (current_tenant : String)
    (encounter_id : Nat) (job_id : Nat) :
    Except String (ClinicalEncounter × EncounterServiceState) :=
  match dictGet st.encounters encounter_id with
  | none => Except.error "KeyError"
  | some encounter =>
      if encounter.tenant_id ≠ current_tenant then
        Except.error "Encounter does not belong to current tenant"
      else if job_id ∈ encounter.transcription_job_ids then
        Except.ok (encounter, st)
      else
        let encounter1 :=
          { encounter with
            transcription_job_ids := encounter.transcription_job_ids ++ [job_id] }
        let encounter2 :=
          if encounter1.status = EncounterStatus.CREATED then
            { encounter1 with status := EncounterStatus.IN_PROGRESS }
          else encounter1
        Except.ok (encounter2, { st with encounters := dictSet st.encounters encounter_id encounter2 })

/-- `InMemoryEncounterService._find_note_for_encounter`: first note (in dict
insertion order) of the current tenant referencing the encounter. -/
def find_note_for_encounter (notes : List (Nat × ClinicalNote))
    (current_tenant : String) (encounter_id : Nat) : Option ClinicalNote :=
  (notes.map Prod.snd).find?
    (fun note => note.tenant_id == current_tenant && note.encounter_id == encounter_id)

/-- Python `a or b` on `Optional[str]` values (`None` and `""` are falsy). -/
def pyOrOptStr (a b : Option String) : Option String :=
  if pyTruthyStr a then a else b

/-- `InMemoryEncounterService.upsert_note_from_soap`; `now` models
`datetime.utcnow()` and `new_note_id` the `uuid4()` used for a fresh note. -/
def upsert_note_from_soap (st : EncounterServiceState) (current_tenant : String)
    (now : Nat) (new_note_id : Nat) (encounter_id : Nat)
    (subjective objective assessment plan : String)
    (editor_id : Option String) (finalize : Bool) :
    ClinicalNote × EncounterServiceState :=
  let note : ClinicalNote :=
    match find_note_for_encounter st.notes current_tenant encounter_id with
    | none =>
        { id := new_note_id, encounter_id := encounter_id
          created_at := now, updated_at := now
          created_by := editor_id, last_edited_by := editor_id
          is_finalized := finalize
          subjective := { text := subjective }, objective := { text := objective }
          assessment := { text := assessment }, plan := { text := plan }
          tenant_id := current_tenant }
    | some existing =>
        { existing with
          updated_at := now
          last_edited_by := pyOrOptStr editor_id existing.last_edited_by
          is_finalized := existing.is_finalized || finalize
          subjective := { text := subjective }, objective := { text := objective }
          assessment := { text := assessment }, plan := { text := plan } }
  let notes1 := dictSet st.notes note.id note
  let encounters1 :=
    match dictGet st.encounters encounter_id with
    | none => st.encounters
    | some encounter =>
        let encounter1 :=
          if finalize then { encounter with status := EncounterStatus.FINALIZED }
          else if encounter.status = EncounterStatus.CREATED
              ∨ encounter.status = EncounterStatus.IN_PROGRESS then
            { encounter with status := EncounterStatus.READY_FOR_REVIEW }
          else encounter
        dictSet st.encounters encounter_id encounter1
  (note, { encounters := encounters1, notes := notes1 })

/-- The status stored for an encounter id, if any. -/
def encStatusAt (st : EncounterServiceState) (encounter_id : Nat) : Option EncounterStatus :=
  (dictGet st.encounters encounter_id).map ClinicalEncounter.status

/-! ## Coding backends (src/backend/services/nlp/backends.py) -/

/-- Loop body of `DemoCodingBackend.code`: the demo "diabetes" diagnosis is
coded to ICD-10 E11 when `diag.code` is falsy; everything else is untouched. -/
def demoCodeEntity (diag : ClinicalEntity) : ClinicalEntity :=
  if pyLower diag.text == "diabetes" && !pyTruthyStr diag.code then
    { diag with code := some "E11" }
  else diag

/-- `DemoCodingBackend.code` (in-place mutation modelled functionally; only
the diagnoses bucket is iterated). -/
def DemoCodingBackend.code (entities : ClinicalEntities) : ClinicalEntities :=
  { entities with diagnoses := entities.diagnoses.map demoCodeEntity }

/-- Loop body of `UmlsCodingBackend.code`. `bestCode` abstracts
`_best_match(ent.text)` composed with `match.get("code")` and the
`isinstance(code, str)` check over the loaded concepts file; it is a pure
function of the entity text. -/
def umlsCodeEntity (bestCode : String → Option String) (ent : ClinicalEntity) :
    ClinicalEntity :=
  if pyTruthyStr ent.code || ent.text == "" then ent
  else
    match bestCode ent.text with
    | none => ent
    | some c => { ent with code := some c }

/-- `UmlsCodingBackend.code` over the three buckets it iterates
(diagnoses, symptoms, medications). -/
def UmlsCodingBackend.code (bestCode : String → Option String)
    (entities : ClinicalEntities) : ClinicalEntities :=
  { entities with
    diagnoses := entities.diagnoses.map (umlsCodeEntity bestCode)
    symptoms := entities.symptoms.map (umlsCodeEntity bestCode)
    medications := entities.medications.map (umlsCodeEntity bestCode) }

/-- `DemoNERBackend.extract`. -/
def DemoNERBackend.extract (text : String) : ClinicalEntities :=
  let lower := pyLower text
  let e0 : ClinicalEntities := {}
  let e1 :=
    if strContains lower "diabetes" then
      { e0 with diagnoses := e0.diagnoses ++ [{ label := "DIAGNOSIS", text := "diabetes" }] }
    else e0
  if strContains lower "metformin" then
    { e1 with medications := e1.medications ++ [{ label := "MEDICATION", text := "metformin" }] }
  else e1

/-- `DemoSOAPGeneratorBackend.generate`. -/
def DemoSOAPGeneratorBackend.generate (text : String) (entities : ClinicalEntities) :
    SOAPNote :=
  { subjective := { text := "Subjective summary: " ++ text }
    objective := { text := "Objective: demo placeholder" }
    assessment := { text := "Assessment: demo placeholder" }
    plan := { text := "Plan: demo placeholder" } }

/-! ## Consent gate
(src/backend/services/governance/indigenous_data_sovereignty_guard.py) -/

/-- A Python value held in a `patient_metadata` mapping; only actual booleans
pass the `isinstance(value, bool)` checks of the consent gate. -/
inductive MetaValue where
  | boolean (b : Bool)
  | string (s : String)
  | integer (n : Int)
  | none_v
deriving DecidableEq, Repr

def MetaValue.isBool : MetaValue → Bool
  | boolean _ => true
  | _ => false

structure CulturalConsentContext where
  tenant_id : String
  cultural_ai_allowed : Bool := true
  training_allowed : Bool := false
  reason : Option String := none
deriving DecidableEq, Repr

/-- `evaluate_cultural_ai_consent`; `current_tenant` models
`get_current_tenant()`, the metadata mapping is an assoc list. -/
def evaluate_cultural_ai_consent (tenant_id : Option String) (current_tenant : String)
    (patient_metadata : Option (List (String × MetaValue))) : CulturalConsentContext :=
  let tenant :=
    match tenant_id with
    | none => current_tenant
    | some t => if t == "" then current_tenant else t
  match patient_metadata with
  | none =>
      { tenant_id := tenant, cultural_ai_allowed := true, training_allowed := false
        reason := none }
  | some md =>
      let step1 : Bool × Option String :=
        match dictGet md "consent_cultural_ai" with
        | none => (true, none)
        | some v =>
            ((match v with | MetaValue.boolean b => b | _ => true),
              pyOrOptStr none (some "patient_level_consent"))
      let step2 : Bool × Option String :=
        match dictGet md "consent_data_training" with
        | none => (false, step1.2)
        | some v =>
            ((match v with | MetaValue.boolean b => b | _ => false),
              pyOrOptStr step1.2 (some "patient_level_training_consent"))
      { tenant_id := tenant, cultural_ai_allowed := step1.1
        training_allowed := step2.1, reason := step2.2 }

/-! ## Phrase normalizers
(src/backend/services/nlp/cultural_phrase_normalizer.py,
 indigenous_phrase_normalizer.py) -/

/-- `needle` is a case-insensitive prefix of `hay`. -/
def startsWithCI : List Char → List Char → Bool
  | _, [] => true
  | [], _ :: _ => false
  | a :: as, b :: bs => a.toLower == b.toLower && startsWithCI as bs

/-- `re.sub(re.escape(needle), repl, text, IGNORECASE)`: non-overlapping
left-to-right case-insensitive replacement, with fuel for termination. -/
def replaceCIAux : Nat → List Char → List Char → List Char → List Char
  | 0, text, _, _ => text
  | _ + 1, [], _, _ => []
  | fuel + 1, c :: cs, needle, repl =>
      if needle ≠ [] ∧ startsWithCI (c :: cs) needle = true then
        repl ++ replaceCIAux fuel ((c :: cs).drop needle.length) needle repl
      else
        c :: replaceCIAux fuel cs needle repl

/-- `_replace_case_insensitive(text, needle, replacement)`. -/
def replaceCI (text needle replacement : String) : String :=
  String.mk (replaceCIAux text.data.length text.data needle.data replacement.data)

/-- The `context is not None and not context.cultural_ai_allowed` guard shared
by both normalizers. -/
def contextDisallows : Option CulturalConsentContext → Bool
  | none => false
  | some c => !c.cultural_ai_allowed

/-- `CulturalPhraseNormalizer.normalize`. -/
def CulturalPhraseNormalizer.normalize (text : String)
    (context : Option CulturalConsentContext) : String :=
  if text == "" then text
  else if contextDisallows context then text
  else
    let normalized := text
    let normalized := replaceCI normalized "my blood is hot"
      "my body feels hot, like I have a fever"
    let normalized := replaceCI normalized "my spirit is tired"
      "I feel very tired and low in mood"
    let normalized := replaceCI normalized "the child is not active"
      "the child is less active and less playful than usual"
    let normalized := replaceCI normalized "the sun is burning my blood"
      "I feel extremely hot, like the sun is overheating my body"
    normalized

/-- `IndigenousPhraseNormalizer.normalize`. -/
def IndigenousPhraseNormalizer.normalize (text : String)
    (context : Option CulturalConsentContext) : String :=
  if text == "" then text
  else if contextDisallows context then text
  else
    replaceCI text "my ancestors are calling"
      "I feel a strong spiritual pull and emotional distress from my ancestors"

/-! ## PipelineNLPService (src/backend/services/nlp/service.py) -/

/-- `PipelineNLPService.extract_and_summarize`, parameterized by the three
configured backends. `current_tenant` models `get_current_tenant()`. -/
def extract_and_summarize (ner : String → ClinicalEntities)
    (coding : ClinicalEntities → ClinicalEntities)
    (soapGen : String → ClinicalEntities → SOAPNote)
    (transcript : String) (tenant_id : Option String) (current_tenant : String)
    (patient_metadata : Option (List (String × MetaValue)))
    (respect_cultural_consent : Bool) : ClinicalEntities × SOAPNote :=
  let effective_tenant :=
    match tenant_id with
    | none => current_tenant
    | some t => if t == "" then current_tenant else t
  let consent_ctx : Option CulturalConsentContext :=
    if respect_cultural_consent then
      some (evaluate_cultural_ai_consent (some effective_tenant) current_tenant
        patient_metadata)
    else none
  let text_for_nlp :=
    if contextDisallows consent_ctx then transcript
    else
      IndigenousPhraseNormalizer.normalize
        (CulturalPhraseNormalizer.normalize transcript consent_ctx) consent_ctx
  let entities := coding (ner text_for_nlp)
  let soap_note := soapGen text_for_nlp entities
  (entities, soap_note)

/-! ## Decision support
(src/backend/domain/nlp/decision_support.py,
 src/backend/services/nlp/decision_support_service.py) -/

inductive SuggestionType where
  | DIFFERENTIAL
  | RED_FLAG
  | MED_ADJUSTMENT
  | CONTRAINDICATION
deriving DecidableEq, Repr

inductive SuggestionSeverity where
  | INFO
  | WARNING
  | CRITICAL
deriving DecidableEq, Repr

/-- `DecisionSupportSuggestion` (the random uuid `id` field is omitted: no
claim mentions it and it carries no information). -/
structure DecisionSupportSuggestion where
  type : SuggestionType
  severity : SuggestionSeverity
  summary : String
  details : Option String := none
  evidence_refs : List String := []
  source : String := "demo_rule"
  regulated : Bool := false
deriving DecidableEq, Repr

/-- `DecisionSupportSuggestion.new`. -/
def DecisionSupportSuggestion.new (type : SuggestionType)
    (severity : SuggestionSeverity) (summary : String) (details : Option String)
    (evidence_refs : List String) : DecisionSupportSuggestion :=
  { type := type, severity := severity, summary := summary, details := details
    evidence_refs := evidence_refs }

/-- `DecisionSupportService.suggest`: the rule-engine layer. -/
def DecisionSupportService.suggest (entities : ClinicalEntities)
    (soap_note : Option SOAPNote) : List DecisionSupportSuggestion :=
  let has_diabetes_dx := entities.diagnoses.any (fun e => strContains (pyLower e.text) "diabetes")
  let has_metformin := entities.medications.any (fun e => strContains (pyLower e.text) "metformin")
  let s1 :=
    if has_diabetes_dx && !has_metformin then
      [DecisionSupportSuggestion.new SuggestionType.MED_ADJUSTMENT SuggestionSeverity.INFO
        "Diabetes diagnosis without metformin detected."
        (some ("Consider whether first-line therapy such as metformin or other "
          ++ "appropriate agents is indicated based on guidelines and patient context."))
        ["demo-guideline-diabetes-1"]]
    else []
  let s2 :=
    if has_metformin && !has_diabetes_dx then
      [DecisionSupportSuggestion.new SuggestionType.CONTRAINDICATION SuggestionSeverity.WARNING
        "Metformin mentioned without an obvious diabetes diagnosis."
        (some "Verify indication and ensure documentation of the underlying condition.")
        ["demo-guideline-diabetes-2"]]
    else []
  let s3 :=
    if has_diabetes_dx && has_metformin then
      [DecisionSupportSuggestion.new SuggestionType.DIFFERENTIAL SuggestionSeverity.INFO
        "Diabetes on treatment – consider labs and monitoring."
        (some "Ensure recent HbA1c, renal function, and follow-up plan are documented.")
        ["demo-guideline-diabetes-3"]]
    else []
  let soapRules :=
    match soap_note with
    | none => []
    | some s =>
        let note_text := soapJoinedLower s
        let hf :=
          if strContains note_text "heart failure" || strContains note_text "hfref" then
            [DecisionSupportSuggestion.new SuggestionType.RED_FLAG SuggestionSeverity.INFO
              "Heart failure mentioned – ensure guideline-directed therapy."
              (some "Consider ACEi/ARB/ARNI, beta-blocker, MRA, and SGLT2i as appropriate.")
              ["demo-guideline-hf-1"]]
          else []
        let ob :=
          if strContains note_text "pregnancy" || strContains note_text "prenatal" then
            [DecisionSupportSuggestion.new SuggestionType.RED_FLAG SuggestionSeverity.INFO
              "Prenatal visit – check key maternal/fetal parameters."
              (some ("Confirm blood pressure, fetal movement, warning signs, and "
                ++ "follow-up interval are documented."))
              ["demo-guideline-ob-1"]]
          else []
        let psych :=
          if strContains note_text "suicidal" || strContains note_text "self-harm" then
            [DecisionSupportSuggestion.new SuggestionType.RED_FLAG SuggestionSeverity.CRITICAL
              "Possible suicidality mentioned – follow safety protocol."
              (some ("Ensure immediate risk assessment, safety planning, and "
                ++ "escalation per clinic policy."))
              ["demo-guideline-psych-1"]]
          else []
        hf ++ ob ++ psych
  s1 ++ s2 ++ s3 ++ soapRules

/-! ## Concrete sample inputs used by witnesses and counterexamples -/

/-- A diagnosis entity with non-empty text and no code. -/
def entDiabetes : ClinicalEntity :=
  { label := "DIAGNOSIS", text := "diabetes", code := none }

/-- A diagnosis entity whose `text` is the empty string (falsy in Python). -/
def entEmptyText : ClinicalEntity :=
  { label := "DIAGNOSIS", text := "", code := none }

/-- Entity set holding only `entDiabetes`. -/
def entitiesDiabetes : ClinicalEntities := { diagnoses := [entDiabetes] }

/-- Entity set holding only `entEmptyText`. -/
def entitiesEmptyText : ClinicalEntities := { diagnoses := [entEmptyText] }

/-- A diagnosis entity that already carries a code. -/
def entCoded : ClinicalEntity := { label := "DIAGNOSIS", text := "asthma", code := some "J45" }

/-- Entity set holding only `entCoded`. -/
def entitiesCoded : ClinicalEntities := { diagnoses := [entCoded] }

/-- A pending job under the default tenant. -/
def jobPendingW : TranscriptJob :=
  { id := 0, created_at := 0, status := TranscriptJobStatus.PENDING
    audio_url := "https://storage/audio/1.wav", tenant_id := "default" }

/-- An ASR backend that always raises. -/
def failingAsr : String → Option String → Except String String :=
  fun _ _ => Except.error "ASR backend error"

/-- A translation backend that echoes its input. -/
def echoTranslate : String → String → Option String → Except String String :=
  fun text _ _ => Except.ok text

/-- A FINALIZED encounter under the default tenant. -/
def encFinalW : ClinicalEncounter :=
  { id := 1, created_at := 0, status := EncounterStatus.FINALIZED, tenant_id := "default" }

/-- A finalized note for `encFinalW`. -/
def noteFinalW : ClinicalNote :=
  { id := 10, encounter_id := 1, created_at := 0, updated_at := 0
    is_finalized := true
    subjective := { text := "S0" }, objective := { text := "O0" }
    assessment := { text := "A0" }, plan := { text := "P0" }
    tenant_id := "default" }

/-- Service state holding `encFinalW` and `noteFinalW`. -/
def stFinalW : EncounterServiceState :=
  { encounters := [(1, encFinalW)], notes := [(10, noteFinalW)] }

/-- A SOAP note whose combined text contains "suicidal". -/
def soapSuicidalW : SOAPNote :=
  { subjective := { text := "Patient reports feeling suicidal at night." }
    objective := { text := "Alert and oriented." }
    assessment := { text := "Acute safety concern." }
    plan := { text := "Immediate safety planning." } }

/-- Patient metadata mapping both consent keys to non-boolean values. -/
def mdNonBool : List (String × MetaValue) :=
  [("consent_cultural_ai", MetaValue.string "yes"),
   ("consent_data_training", MetaValue.integer 1)]

/-- A consent context with cultural AI disallowed. -/
def ctxDenied : CulturalConsentContext :=
  { tenant_id := "default", cultural_ai_allowed := false }

/-- Patient metadata carrying an explicit boolean cultural-AI refusal. -/
def mdDenied : List (String × MetaValue) :=
  [("consent_cultural_ai", MetaValue.boolean false)]

/-! ## Theorems -/

theorem dictGet_dictSet_self {κ : Type} [DecidableEq κ] {α : Type}
    (l : List (κ × α)) (k : κ) (v : α) : dictGet (dictSet l k v) k = some v := by
  induction l with
  | nil => simp [dictGet, dictSet]
  | cons hd tl ih =>
      obtain ⟨k', v'⟩ := hd
      by_cases h : k' = k
      · simp [dictGet, dictSet, h]
      · simp [dictGet, dictSet, h, ih]

/-- A code assignment of the given category is present (the category-presence
predicate of `_compute_billing_risk`). -/
def hasCategory (assignments : List CodeAssignment) (cat : String) : Prop :=
  ∃ a ∈ assignments, a.category = some cat

instance (assignments : List CodeAssignment) (cat : String) :
    Decidable (hasCategory assignments cat) := by
  unfold hasCategory
  infer_instance

theorem hasCategory_iff_any (assignments : List CodeAssignment) (cat : String) :
    assignments.any (fun a => a.category == some cat) = true ↔
      hasCategory assignments cat := by
  simp [hasCategory, List.any_eq_true]

/-- C1: the billing risk level produced by `_compute_billing_risk` is HIGH on an
empty assignment list; LOW iff a diagnosis-category and a procedure-category
assignment both exist; MEDIUM iff exactly one of the two categories is present;
HIGH otherwise (empty list or neither category). -/
theorem billing_risk_contract (assignments : List CodeAssignment) :
    ((compute_billing_risk assignments).level = BillingRiskLevel.LOW ↔
        (hasCategory assignments "diagnosis" ∧ hasCategory assignments "procedure"))
    ∧ ((compute_billing_risk assignments).level = BillingRiskLevel.MEDIUM ↔
        ((hasCategory assignments "diagnosis" ∧ ¬ hasCategory assignments "procedure")
          ∨ (¬ hasCategory assignments "diagnosis" ∧ hasCategory assignments "procedure")))
    ∧ ((compute_billing_risk assignments).level = BillingRiskLevel.HIGH ↔
        (assignments = []
          ∨ (¬ hasCategory assignments "diagnosis" ∧ ¬ hasCategory assignments "procedure"))) := by
  by_cases hemp : assignments = []
  · subst hemp
    simp [compute_billing_risk, hasCategory]
  · have hne : assignments.isEmpty = false := by
      simp [List.isEmpty_iff, hemp]
    by_cases hdx : ∃ a ∈ assignments, a.category = some "diagnosis" <;>
      by_cases hproc : ∃ a ∈ assignments, a.category = some "procedure" <;>
        simp [compute_billing_risk, hne, hemp, hdx, hproc, hasCategory, List.any_eq_true]

theorem entityAssignment_of_nonempty (cat : String) (ent : ClinicalEntity)
    (h : ent.text ≠ "") :
    ∃ a, entityAssignment cat ent = some a ∧ a.source_text = ent.text
      ∧ a.code = codeOrUncoded ent.code := by
  exact ⟨{ code_system := guessSystem ent.code, code := codeOrUncoded ent.code, display := none,
           source_entity_label := some ent.label, source_text := ent.text, confidence := none,
           category := some cat },
         by simp [entityAssignment, h], rfl, rfl⟩

theorem mem_addFromBucket (cat : String) (bucket : List ClinicalEntity)
    (ent : ClinicalEntity) (hmem : ent ∈ bucket) (h : ent.text ≠ "") :
    ∃ a ∈ addFromBucket bucket cat,
      a.source_text = ent.text ∧ a.code = codeOrUncoded ent.code := by
  obtain ⟨a, ha, hsrc, hcode⟩ := entityAssignment_of_nonempty cat ent h
  exact ⟨a, List.mem_filterMap.mpr ⟨ent, hmem, ha⟩, hsrc, hcode⟩

theorem addFromBucket_length (bucket : List ClinicalEntity) (cat : String) :
    (addFromBucket bucket cat).length = bucket.countP (fun x => x.text != "") := by
  induction bucket with
  | nil => rfl
  | cons hd tl ih =>
      by_cases h : hd.text = ""
      · simp [addFromBucket, entityAssignment, List.filterMap_cons, List.countP_cons, h] at ih ⊢
        exact ih
      · simp [addFromBucket, entityAssignment, List.filterMap_cons, List.countP_cons, h] at ih ⊢
        exact ih

/-- C5 counterexample: `assign_codes` drops an entity whose `text` is empty
(`if not ent.text: continue`), so it does not produce one assignment per
entity of the diagnosis list. -/
theorem assign_codes_drops_empty_text_entity :
    (assign_codes entitiesEmptyText none).1 = [] ∧ entitiesEmptyText.diagnoses.length = 1 :=
  ⟨rfl, rfl⟩

/-- C5 (amended): `assign_codes` yields one assignment per entity with
non-empty text in the diagnoses/medications/symptoms lists — an uncoded such
entity yields an assignment with code "UNCODED" rather than being dropped —
while entities with empty text are skipped. -/
theorem assign_codes_per_nonempty_entity (e : ClinicalEntities) (soap : Option SOAPNote)
    (ent : ClinicalEntity)
    (hmem : ent ∈ e.diagnoses ∨ ent ∈ e.medications ∨ ent ∈ e.symptoms)
    (htext : ent.text ≠ "") :
    (∃ a ∈ (assign_codes e soap).1,
        a.source_text = ent.text ∧ (ent.code = none → a.code = "UNCODED"))
    ∧ (assign_codes e none).1.length =
        e.diagnoses.countP (fun x => x.text != "")
          + e.medications.countP (fun x => x.text != "")
          + e.symptoms.countP (fun x => x.text != "") := by
  constructor
  · have hbase :
        ∃ a ∈ addFromBucket e.diagnoses "diagnosis" ++ addFromBucket e.medications "medication"
            ++ addFromBucket e.symptoms "symptom",
          a.source_text = ent.text ∧ a.code = codeOrUncoded ent.code := by
      rcases hmem with hd | hm | hs
      · obtain ⟨a, ha, h1, h2⟩ := mem_addFromBucket "diagnosis" e.diagnoses ent hd htext
        exact ⟨a, List.mem_append_left _ (List.mem_append_left _ ha), h1, h2⟩
      · obtain ⟨a, ha, h1, h2⟩ := mem_addFromBucket "medication" e.medications ent hm htext
        exact ⟨a, List.mem_append_left _ (List.mem_append_right _ ha), h1, h2⟩
      · obtain ⟨a, ha, h1, h2⟩ := mem_addFromBucket "symptom" e.symptoms ent hs htext
        exact ⟨a, List.mem_append_right _ ha, h1, h2⟩
    obtain ⟨a, ha, h1, h2⟩ := hbase
    refine ⟨a, ?_, h1, ?_⟩
    · cases soap with
      | none => exact ha
      | some s =>
          simp only [assign_codes]
          split
          · exact List.mem_append_left _ ha
          · exact ha
    · intro hc
      rw [h2, hc]
      rfl
  · simp [assign_codes, addFromBucket_length, Nat.add_assoc]

/-- C5 amended-theorem witness at a concrete entity set. -/
theorem assign_codes_per_nonempty_entity_witness :
    (∃ a ∈ (assign_codes entitiesDiabetes none).1,
        a.source_text = entDiabetes.text ∧ (entDiabetes.code = none → a.code = "UNCODED"))
    ∧ (assign_codes entitiesDiabetes none).1.length =
        entitiesDiabetes.diagnoses.countP (fun x => x.text != "")
          + entitiesDiabetes.medications.countP (fun x => x.text != "")
          + entitiesDiabetes.symptoms.countP (fun x => x.text != "") :=
  assign_codes_per_nonempty_entity entitiesDiabetes none entDiabetes
    (Or.inl (by simp [entitiesDiabetes])) (by decide)

/-- C2: `_run_job` has no exception handling — when the ASR backend raises,
the exception propagates and the stored job is left in PROCESSING, never
transitioned to FAILED (contradicting both the spec and the async route's
own docstring, which promises polling until COMPLETED or FAILED). -/
theorem run_job_asr_exception_leaves_processing :
    (run_job failingAsr echoTranslate [(0, jobPendingW)] 0).1
      = Except.error "ASR backend error"
    ∧ (dictGet (run_job failingAsr echoTranslate [(0, jobPendingW)] 0).2 0).map
        TranscriptJob.status = some TranscriptJobStatus.PROCESSING
    ∧ TranscriptJobStatus.PROCESSING ≠ TranscriptJobStatus.FAILED :=
  ⟨rfl, rfl, by decide⟩

/-- C4: an entity stored under a different tenant than the current one is not
retrievable by id — `get_job`, `get_encounter` and `get_note` all answer
`None`, exactly as for a missing id. -/
theorem tenant_isolation_on_get (current_tenant : String) :
    (∀ jobs job_id job, dictGet jobs job_id = some job →
        job.tenant_id ≠ current_tenant → get_job jobs current_tenant job_id = none)
    ∧ (∀ st encounter_id enc, dictGet st.encounters encounter_id = some enc →
        enc.tenant_id ≠ current_tenant → get_encounter st current_tenant encounter_id = none)
    ∧ (∀ st note_id note, dictGet st.notes note_id = some note →
        note.tenant_id ≠ current_tenant → get_note st current_tenant note_id = none) := by
  refine ⟨?_, ?_, ?_⟩
  · intro jobs job_id job hget hne
    simp [get_job, hget, hne]
  · intro st encounter_id enc hget hne
    simp [get_encounter, hget, hne]
  · intro st note_id note hget hne
    simp [get_note, hget, hne]

/-- C4 witness: cross-tenant retrieval of concrete stored entities. -/
theorem tenant_isolation_on_get_witness :
    get_job [(0, jobPendingW)] "tenantB" 0 = none
    ∧ get_encounter stFinalW "tenantB" 1 = none
    ∧ get_note stFinalW "tenantB" 10 = none :=
  ⟨(tenant_isolation_on_get "tenantB").1 [(0, jobPendingW)] 0 jobPendingW rfl (by decide),
   (tenant_isolation_on_get "tenantB").2.1 stFinalW 1 encFinalW rfl (by decide),
   (tenant_isolation_on_get "tenantB").2.2 stFinalW 10 noteFinalW rfl (by decide)⟩

/-- C3 counterexample: upserting over a finalized note overwrites its section
texts (last-writer-wins), so finalized sections are not left unchanged. -/
theorem upsert_overwrites_finalized_sections :
    noteFinalW.is_finalized = true
    ∧ noteFinalW.subjective.text = "S0"
    ∧ (upsert_note_from_soap stFinalW "default" 1 11 1 "S1" "O0" "A0" "P0"
        none false).1.subjective.text = "S1" :=
  ⟨rfl, rfl, rfl⟩

/-- C3 (amended): on an upsert over an existing finalized note, `is_finalized`
is computed as `existing.is_finalized or finalize` and thus never reverts to
false (finalize stays one-way), while the four section texts are overwritten
with the incoming values (last-writer-wins). -/
theorem upsert_finalize_one_way (st : EncounterServiceState) (current_tenant : String)
    (now new_note_id encounter_id : Nat)
    (subjective objective assessment plan : String)
    (editor_id : Option String) (finalize : Bool) (existing : ClinicalNote)
    (hex : find_note_for_encounter st.notes current_tenant encounter_id = some existing)
    (hfin : existing.is_finalized = true) :
    (upsert_note_from_soap st current_tenant now new_note_id encounter_id
        subjective objective assessment plan editor_id finalize).1.is_finalized = true
    ∧ (upsert_note_from_soap st current_tenant now new_note_id encounter_id
        subjective objective assessment plan editor_id finalize).1.subjective.text
        = subjective
    ∧ (upsert_note_from_soap st current_tenant now new_note_id encounter_id
        subjective objective assessment plan editor_id finalize).1.objective.text
        = objective
    ∧ (upsert_note_from_soap st current_tenant now new_note_id encounter_id
        subjective objective assessment plan editor_id finalize).1.assessment.text
        = assessment
    ∧ (upsert_note_from_soap st current_tenant now new_note_id encounter_id
        subjective objective assessment plan editor_id finalize).1.plan.text
        = plan := by
  refine ⟨?_, ?_, ?_, ?_, ?_⟩
  · simp [upsert_note_from_soap, hex, hfin]
  · simp [upsert_note_from_soap, hex]
  · simp [upsert_note_from_soap, hex]
  · simp [upsert_note_from_soap, hex]
  · simp [upsert_note_from_soap, hex]

/-- C3 amended-theorem witness on the concrete finalized state. -/
theorem upsert_finalize_one_way_witness :
    (upsert_note_from_soap stFinalW "default" 1 11 1 "S1" "O1" "A1" "P1"
        none false).1.is_finalized = true
    ∧ (upsert_note_from_soap stFinalW "default" 1 11 1 "S1" "O1" "A1" "P1"
        none false).1.subjective.text = "S1"
    ∧ (upsert_note_from_soap stFinalW "default" 1 11 1 "S1" "O1" "A1" "P1"
        none false).1.objective.text = "O1"
    ∧ (upsert_note_from_soap stFinalW "default" 1 11 1 "S1" "O1" "A1" "P1"
        none false).1.assessment.text = "A1"
    ∧ (upsert_note_from_soap stFinalW "default" 1 11 1 "S1" "O1" "A1" "P1"
        none false).1.plan.text = "P1" :=
  upsert_finalize_one_way stFinalW "default" 1 11 1 "S1" "O1" "A1" "P1"
    none false noteFinalW rfl rfl

theorem demoCodeEntity_of_truthy (ent : ClinicalEntity)
    (h : pyTruthyStr ent.code = true) : demoCodeEntity ent = ent := by
  simp [demoCodeEntity, h]

theorem umlsCodeEntity_of_truthy (bestCode : String → Option String)
    (ent : ClinicalEntity) (h : pyTruthyStr ent.code = true) :
    umlsCodeEntity bestCode ent = ent := by
  simp [umlsCodeEntity, h]

/-- C6: an entity whose `code` field is already populated (a non-empty string,
i.e. truthy in Python) is left entirely unchanged by both the demo and the
UMLS coding backends, wherever it sits in the entity buckets. -/
theorem coding_preserves_populated_codes (bestCode : String → Option String)
    (e : ClinicalEntities) (i : Nat) (ent : ClinicalEntity) (s : String)
    (hcode : ent.code = some s) (hne : s ≠ "") :
    (e.diagnoses[i]? = some ent →
        (DemoCodingBackend.code e).diagnoses[i]? = some ent
          ∧ (UmlsCodingBackend.code bestCode e).diagnoses[i]? = some ent)
    ∧ (e.medications[i]? = some ent →
        (UmlsCodingBackend.code bestCode e).medications[i]? = some ent)
    ∧ (e.symptoms[i]? = some ent →
        (UmlsCodingBackend.code bestCode e).symptoms[i]? = some ent)
    ∧ (DemoCodingBackend.code e).medications = e.medications
    ∧ (DemoCodingBackend.code e).symptoms = e.symptoms := by
  have ht : pyTruthyStr ent.code = true := by
    simp [pyTruthyStr, hcode, hne]
  refine ⟨?_, ?_, ?_, rfl, rfl⟩
  · intro h
    constructor
    · simp [DemoCodingBackend.code, List.getElem?_map, h,
        demoCodeEntity_of_truthy ent ht]
    · simp [UmlsCodingBackend.code, List.getElem?_map, h,
        umlsCodeEntity_of_truthy bestCode ent ht]
  · intro h
    simp [UmlsCodingBackend.code, List.getElem?_map, h,
      umlsCodeEntity_of_truthy bestCode ent ht]
  · intro h
    simp [UmlsCodingBackend.code, List.getElem?_map, h,
      umlsCodeEntity_of_truthy bestCode ent ht]

/-- C6 witness: a concrete pre-coded diagnosis survives both backends. -/
theorem coding_preserves_populated_codes_witness :
    (DemoCodingBackend.code entitiesCoded).diagnoses[0]? = some entCoded
    ∧ (UmlsCodingBackend.code (fun _ => some "C0") entitiesCoded).diagnoses[0]?
        = some entCoded :=
  (coding_preserves_populated_codes (fun _ => some "C0") entitiesCoded 0 entCoded
    "J45" rfl (by decide)).1 rfl

/-- C7: once an encounter is FINALIZED, neither `attach_job` nor
`upsert_note_from_soap` moves its status to an earlier state: any successful
`attach_job` returns and stores a FINALIZED encounter, and any upsert (with or
without `finalize`) leaves the stored status FINALIZED. -/
theorem finalized_encounter_never_regresses (st : EncounterServiceState)
    (current_tenant : String) (encounter_id : Nat) (enc : ClinicalEncounter)
    (henc : dictGet st.encounters encounter_id = some enc)
    (hfin : enc.status = EncounterStatus.FINALIZED) :
    (∀ job_id enc' st', attach_job st current_tenant encounter_id job_id
          = Except.ok (enc', st') →
        enc'.status = EncounterStatus.FINALIZED
          ∧ encStatusAt st' encounter_id = some EncounterStatus.FINALIZED)
    ∧ (∀ now new_note_id subjective objective assessment plan editor_id finalize,
        encStatusAt (upsert_note_from_soap st current_tenant now new_note_id
            encounter_id subjective objective assessment plan editor_id finalize).2
          encounter_id = some EncounterStatus.FINALIZED) := by
  constructor
  · intro job_id enc' st' h
    simp only [attach_job, henc] at h
    by_cases htenant : enc.tenant_id ≠ current_tenant
    · rw [if_pos htenant] at h
      cases h
    · rw [if_neg htenant] at h
      by_cases hmem : job_id ∈ enc.transcription_job_ids
      · rw [if_pos hmem] at h
        obtain ⟨h1, h2⟩ := Prod.mk.injEq .. ▸ (Except.ok.injEq .. ▸ h)
        subst h1
        subst h2
        exact ⟨hfin, by simp [encStatusAt, henc, hfin]⟩
      · rw [if_neg hmem] at h
        simp only [hfin] at h
        rw [if_neg (by decide : ¬ (EncounterStatus.FINALIZED = EncounterStatus.CREATED))] at h
        obtain ⟨h1, h2⟩ := Prod.mk.injEq .. ▸ (Except.ok.injEq .. ▸ h)
        subst h1
        subst h2
        refine ⟨rfl, ?_⟩
        simp [encStatusAt, dictGet_dictSet_self, hfin]
  · intro now new_note_id subjective objective assessment plan editor_id finalize
    simp only [upsert_note_from_soap, henc, encStatusAt]
    rw [dictGet_dictSet_self]
    cases finalize <;> simp [hfin]

/-- C7 witness on the concrete FINALIZED encounter state. -/
theorem finalized_encounter_never_regresses_witness :
    encStatusAt (upsert_note_from_soap stFinalW "default" 2 12 1 "s" "o" "a" "p"
        none false).2 1 = some EncounterStatus.FINALIZED :=
  (finalized_encounter_never_regresses stFinalW "default" 1 encFinalW rfl rfl).2
    2 12 "s" "o" "a" "p" none false

/-- C8: with cultural AI disallowed in the consent context, both phrase
normalizers are the identity on any input text, and the pipeline hands the
raw transcript to the NER, coding and SOAP stages. -/
theorem normalizers_identity_when_consent_denied
    (ctx : CulturalConsentContext) (hctx : ctx.cultural_ai_allowed = false)
    (text : String)
    (ner : String → ClinicalEntities) (coding : ClinicalEntities → ClinicalEntities)
    (soapGen : String → ClinicalEntities → SOAPNote)
    (tenant_id : Option String) (current_tenant : String)
    (patient_metadata : Option (List (String × MetaValue)))
    (hmd : ∀ tid ct,
      (evaluate_cultural_ai_consent tid ct patient_metadata).cultural_ai_allowed = false) :
    CulturalPhraseNormalizer.normalize text (some ctx) = text
    ∧ IndigenousPhraseNormalizer.normalize text (some ctx) = text
    ∧ extract_and_summarize ner coding soapGen text tenant_id current_tenant
        patient_metadata true
        = (coding (ner text), soapGen text (coding (ner text))) := by
  have hdis : contextDisallows (some ctx) = true := by
    simp [contextDisallows, hctx]
  refine ⟨?_, ?_, ?_⟩
  · by_cases h : text == "" <;> simp [CulturalPhraseNormalizer.normalize, h, hdis]
  · by_cases h : text == "" <;> simp [IndigenousPhraseNormalizer.normalize, h, hdis]
  · simp [extract_and_summarize, contextDisallows, hmd]

/-- C8 witness: a denied context and denying metadata on idiom-bearing text. -/
theorem normalizers_identity_when_consent_denied_witness :
    CulturalPhraseNormalizer.normalize "my spirit is tired" (some ctxDenied)
      = "my spirit is tired"
    ∧ IndigenousPhraseNormalizer.normalize "my spirit is tired" (some ctxDenied)
      = "my spirit is tired"
    ∧ extract_and_summarize DemoNERBackend.extract DemoCodingBackend.code
        DemoSOAPGeneratorBackend.generate "my spirit is tired" none "default"
        (some mdDenied) true
        = (DemoCodingBackend.code (DemoNERBackend.extract "my spirit is tired"),
            DemoSOAPGeneratorBackend.generate "my spirit is tired"
              (DemoCodingBackend.code (DemoNERBackend.extract "my spirit is tired"))) :=
  normalizers_identity_when_consent_denied ctxDenied rfl "my spirit is tired"
    DemoNERBackend.extract DemoCodingBackend.code DemoSOAPGeneratorBackend.generate
    none "default" (some mdDenied) (fun _ _ => rfl)

/-- C10: a `consent_cultural_ai` or `consent_data_training` entry whose value
is not an actual boolean leaves that flag at its default (cultural AI allowed,
training not allowed); only `isinstance(value, bool)` values override. -/
theorem nonbool_consent_keeps_defaults (tenant_id : Option String)
    (current_tenant : String) (md : List (String × MetaValue)) :
    (∀ v, dictGet md "consent_cultural_ai" = some v → v.isBool = false →
        (evaluate_cultural_ai_consent tenant_id current_tenant
          (some md)).cultural_ai_allowed = true)
    ∧ (∀ v, dictGet md "consent_data_training" = some v → v.isBool = false →
        (evaluate_cultural_ai_consent tenant_id current_tenant
          (some md)).training_allowed = false) := by
  constructor
  · intro v hv hb
    cases v <;> simp_all [evaluate_cultural_ai_consent, MetaValue.isBool]
  · intro v hv hb
    cases v <;> simp_all [evaluate_cultural_ai_consent, MetaValue.isBool]

/-- C10 witness: metadata with a string and an integer consent value. -/
theorem nonbool_consent_keeps_defaults_witness :
    (evaluate_cultural_ai_consent none "default" (some mdNonBool)).cultural_ai_allowed = true
    ∧ (evaluate_cultural_ai_consent none "default" (some mdNonBool)).training_allowed = false :=
  ⟨(nonbool_consent_keeps_defaults none "default" mdNonBool).1
      (MetaValue.string "yes") rfl rfl,
    (nonbool_consent_keeps_defaults none "default" mdNonBool).2
      (MetaValue.integer 1) rfl rfl⟩

theorem mem_ite_single {α : Type} {c : Prop} [Decidable c] {x sg : α}
    (h : sg ∈ (if c then [x] else [])) : sg = x := by
  by_cases hc : c
  · rw [if_pos hc] at h
    simpa using h
  · rw [if_neg hc] at h
    simp at h

theorem countP_ite_single {α : Type} (p : α → Bool) (c : Prop) [Decidable c] (x : α) :
    (if c then [x] else []).countP p = if c then (if p x then 1 else 0) else 0 := by
  split <;> simp [List.countP_cons]

/-- C9: a SOAP note whose combined text contains "suicidal" makes the rule
engine emit exactly one CRITICAL RED_FLAG suggestion, and (for arbitrary
inputs) the suicidality/self-harm rule is the only rule whose suggestion
carries CRITICAL severity. -/
theorem suicidality_unique_critical (entities : ClinicalEntities) (s : SOAPNote)
    (h : strContains (soapJoinedLower s) "suicidal" = true) :
    (DecisionSupportService.suggest entities (some s)).countP
        (fun sg => sg.type == SuggestionType.RED_FLAG
          && sg.severity == SuggestionSeverity.CRITICAL) = 1
    ∧ ∀ e2 soap2 sg, sg ∈ DecisionSupportService.suggest e2 soap2 →
        sg.severity = SuggestionSeverity.CRITICAL →
        sg.summary = "Possible suicidality mentioned – follow safety protocol." := by
  constructor
  · simp [DecisionSupportService.suggest, List.countP_append, countP_ite_single,
      DecisionSupportSuggestion.new, h]
  · intro e2 soap2 sg hmem hcrit
    cases soap2 with
    | none =>
        simp only [DecisionSupportService.suggest, List.append_nil,
          List.mem_append] at hmem
        rcases hmem with (h1 | h2) | h3
        · have := mem_ite_single h1
          subst this
          exact absurd hcrit (by decide)
        · have := mem_ite_single h2
          subst this
          exact absurd hcrit (by decide)
        · have := mem_ite_single h3
          subst this
          exact absurd hcrit (by decide)
    | some s2 =>
        simp only [DecisionSupportService.suggest, List.mem_append] at hmem
        rcases hmem with ((h1 | h2) | h3) | (hh | ho) | hp
        · have := mem_ite_single h1
          subst this
          exact absurd hcrit (by decide)
        · have := mem_ite_single h2
          subst this
          exact absurd hcrit (by decide)
        · have := mem_ite_single h3
          subst this
          exact absurd hcrit (by decide)
        · have := mem_ite_single hh
          subst this
          exact absurd hcrit (by decide)
        · have := mem_ite_single ho
          subst this
          exact absurd hcrit (by decide)
        · have := mem_ite_single hp
          subst this
          rfl

/-- C9 witness: a concrete SOAP note mentioning suicidality. -/
theorem suicidality_unique_critical_witness :
    (DecisionSupportService.suggest {} (some soapSuicidalW)).countP
        (fun sg => sg.type == SuggestionType.RED_FLAG
          && sg.severity == SuggestionSeverity.CRITICAL) = 1 :=
  (suicidality_unique_critical {} soapSuicidalW (by decide)).1

end MedTrans
